import Mathlib

/-!
Shallow embedding of the image-processing HTTP service: the
metadata-fabricating variant in src/server.js and the metadata-stripping
variant in src/unnamed/part_000.

The decimal arithmetic of the JavaScript source is modelled exactly over
the rationals: JS Math.floor becomes Int.floor, JS Math.round becomes
round-half-up, and Number.prototype.toFixed(2) followed by parseFloat
becomes rounding to two decimal places (toFixed rounds half away from
zero, which coincides with half up on the non-negative values arising in
convertGPSToExif).
-/

/-- JS Math.round: round half towards positive infinity. -/
def jsRound (x : ℚ) : ℤ := ⌊x + 1/2⌋

/-- Model of Number.prototype.toFixed(2) followed by parseFloat, on the
non-negative seconds values arising in convertGPSToExif: the value rounded
to two decimal places. -/
def toFixed2 (x : ℚ) : ℚ := (jsRound (x * 100) : ℚ) / 100

/-- The per-axis value of convertGPSToExif: the three two-element arrays
[[deg, 1], [min, 1], [sec100, 100]] of EXIF rationals built in
src/server.js lines 55-56, each as a (numerator, denominator) pair. -/
structure DMS where
  deg : ℤ × ℤ
  min : ℤ × ℤ
  sec : ℤ × ℤ
  deriving DecidableEq, Repr

/-- The record returned by convertGPSToExif (src/server.js lines 52-57). -/
structure GPSExif where
  latRef : Char
  lngRef : Char
  lat : DMS
  lng : DMS
  deriving DecidableEq, Repr

/-- The function convertGPSToExif of src/server.js lines 37-58.
Math.round(parseFloat(latSec) * 100) becomes jsRound (toFixed2 raw * 100);
since toFixed2 raw times 100 is already an integer, the outer jsRound is
the identity on it (lemma jsRound_intCast below). -/
def convertGPSToExif (lat lng : ℚ) : GPSExif :=
  let latRef := if 0 ≤ lat then 'N' else 'S'
  let lngRef := if 0 ≤ lng then 'E' else 'W'
  let absLat := |lat|
  let absLng := |lng|
  let latDeg : ℤ := ⌊absLat⌋
  let latMin : ℤ := ⌊(absLat - latDeg) * 60⌋
  let latSec := toFixed2 ((absLat - latDeg - (latMin : ℚ) / 60) * 3600)
  let lngDeg : ℤ := ⌊absLng⌋
  let lngMin : ℤ := ⌊(absLng - lngDeg) * 60⌋
  let lngSec := toFixed2 ((absLng - lngDeg - (lngMin : ℚ) / 60) * 3600)
  { latRef := latRef
    lngRef := lngRef
    lat := ⟨(latDeg, 1), (latMin, 1), (jsRound (latSec * 100), 100)⟩
    lng := ⟨(lngDeg, 1), (lngMin, 1), (jsRound (lngSec * 100), 100)⟩ }

/-- The fixed EXIF metadata constant FIXED_EXIF of src/server.js lines 28-34. -/
structure FixedExif where
  Make : String
  Model : String
  Software : String
  GPSLatitude : ℚ
  GPSLongitude : ℚ
  deriving DecidableEq, Repr

def FIXED_EXIF : FixedExif :=
  { Make := "Canon"
    Model := "Canon EOS 5D Mark IV"
    Software := "Adobe Photoshop Lightroom"
    GPSLatitude := 40.748817
    GPSLongitude := -73.985428 }

/-- The exifObj built inside injectExifIntoJpeg (src/server.js lines 68-88):
the 0th namespace holds Make, Model and Software, the GPS namespace holds the
two hemisphere references and the two DMS triplets from convertGPSToExif
applied to the fixed coordinates; the Exif namespace is left empty and is
not modelled. -/
structure ExifObj where
  make : String
  model : String
  software : String
  gps : GPSExif
  deriving DecidableEq, Repr

/-- The metadata record injectExifIntoJpeg builds from FIXED_EXIF
(src/server.js lines 73-88). -/
def fabricatedExif : ExifObj :=
  { make := FIXED_EXIF.Make
    model := FIXED_EXIF.Model
    software := FIXED_EXIF.Software
    gps := convertGPSToExif FIXED_EXIF.GPSLatitude FIXED_EXIF.GPSLongitude }

/-- Container formats handled by the pipeline. -/
inductive Format where
  | jpeg
  | png
  | webp
  deriving DecidableEq, Repr

/-- An encoded image buffer, abstracted: a decodable buffer carries its
container format, its decoded pixel content, its embedded metadata record
(if any) and the quality parameter of the encoder that last produced it;
a corrupt buffer carries the codec error message its decoding raises. -/
inductive ImgBuffer where
  | valid (format : Format) (pixels : List Nat) (meta : Option ExifObj) (lastQuality : ℤ)
  | corrupt (msg : String)
  deriving DecidableEq, Repr

/-- Modelled from the spec: the sharp(...).jpeg(with quality 95).toBuffer()
call of STEP 1 in src/server.js lines 135-137 (the Format Transcoder of spec
section 4.4): decoding succeeds exactly on a well-formed buffer and
re-encodes its pixel data as a fresh JPEG at quality 95; a corrupt buffer
fails with the codec's error message. -/
def sharpToJpeg : ImgBuffer → Except String ImgBuffer
  | .valid _ px _ _ => .ok (.valid .jpeg px none 95)
  | .corrupt msg => .error msg

/-- The function injectExifIntoJpeg of src/server.js lines 61-103: builds the
EXIF record from FIXED_EXIF and convertGPSToExif and splices it into the
JPEG.  piexifjs.dump and piexifjs.insert are modelled from the spec (section
4.3: the Injector serializes the record and splices it into the JPEG
container, leaving pixel data unchanged, and rejects any input that is not a
well-formed JPEG container); the catch block rethrows every failure as the
fixed message of line 101. -/
def injectExifIntoJpeg : ImgBuffer → Except String ImgBuffer
  | .valid .jpeg px _ q => .ok (.valid .jpeg px (some fabricatedExif) q)
  | _ => .error "Failed to inject EXIF metadata into image"

/-- Modelled from the spec: the sharp(...).webp(at the requested quality,
effort 4) call of STEP 3 in src/server.js lines 158-164: re-encodes to WebP
at the given quality, preserving embedded metadata (spec section 4.4,
stripMetadata false); a corrupt buffer fails with the codec message. -/
def sharpToWebp (q : ℤ) : ImgBuffer → Except String ImgBuffer
  | .valid _ px m _ => .ok (.valid .webp px m q)
  | .corrupt msg => .error msg

/-- Modelled from the spec: the sharp(...).withMetadata(false).webp(...) call
of src/unnamed/part_000 lines 55-61: re-encodes to WebP at the given
quality, removing all embedded metadata (spec section 4.4, stripMetadata
true). -/
def sharpStripToWebp (q : ℤ) : ImgBuffer → Except String ImgBuffer
  | .valid _ px _ _ => .ok (.valid .webp px none q)
  | .corrupt msg => .error msg

/-- Digit value of a character in the given radix, as JS parseInt accepts
it; none if the character is not a digit of that radix. -/
def digitValue (radix : Nat) (c : Char) : Option Nat :=
  let v : Option Nat :=
    if '0' ≤ c ∧ c ≤ '9' then some (c.toNat - '0'.toNat)
    else if 'a' ≤ c ∧ c ≤ 'f' then some (c.toNat - 'a'.toNat + 10)
    else if 'A' ≤ c ∧ c ≤ 'F' then some (c.toNat - 'A'.toNat + 10)
    else none
  match v with
  | some n => if n < radix then some n else none
  | none => none

/-- Model of JS parseInt(s) with no radix argument: skip leading whitespace,
read an optional sign, switch to radix 16 after a 0x or 0X prefix, then take
the longest prefix of digits; no digits gives NaN, modelled as none. -/
def parseIntJS (s : String) : Option ℤ :=
  let cs := s.data.dropWhile (fun c => c == ' ' || c == '\t' || c == '\n' || c == '\r')
  let signAndRest : ℤ × List Char :=
    match cs with
    | '-' :: rest => (-1, rest)
    | '+' :: rest => (1, rest)
    | _ => (1, cs)
  let radixAndRest : Nat × List Char :=
    match signAndRest.2 with
    | '0' :: 'x' :: rest => (16, rest)
    | '0' :: 'X' :: rest => (16, rest)
    | _ => (10, signAndRest.2)
  let radix := radixAndRest.1
  let ds := radixAndRest.2.takeWhile (fun c => (digitValue radix c).isSome)
  if ds = [] then none
  else some (signAndRest.1 *
    (ds.foldl (fun acc c => acc * radix + (digitValue radix c).getD 0) 0 : Nat))

/-- The quality computation of src/server.js lines 121-124 (identically
src/unnamed/part_000 lines 42-45): parseInt of the field, with 75 substituted
for falsy results (NaN and 0 are falsy in JS), then 75 substituted for values
outside the range 0 to 100. -/
def effectiveQuality (s : String) : ℤ :=
  let q : ℤ :=
    match parseIntJS s with
    | none => 75
    | some n => if n = 0 then 75 else n
  if q < 0 ∨ 100 < q then 75 else q

/-- Model of Node path.parse(s).name on posix paths (src/server.js line 128):
the basename (after trailing separators are dropped) with the extension
starting at its last dot stripped; a dot that is the first character of the
basename does not start an extension, and the basename consisting of two
dots has no extension. -/
def jsPathParseName (s : String) : String :=
  let afterTrailing := s.data.reverse.dropWhile (fun c => c == '/')
  let base := (afterTrailing.takeWhile (fun c => c != '/')).reverse
  let name :=
    if base = ['.', '.'] then base
    else if (base.drop 1).contains '.' then
      ((base.reverse.dropWhile (fun c => c != '.')).drop 1).reverse
    else base
  String.mk name

/-- An uploaded file as multer presents it: the raw buffer and the declared
original filename. -/
structure UploadFile where
  buffer : ImgBuffer
  originalname : String
  deriving DecidableEq, Repr

/-- The outcome the /process handler produces: a JSON error payload
(status code, error string, and the optional message/details field some
branches attach) or a success response (content type, suggested attachment
filename from the Content-Disposition header, and the body bytes). -/
inductive Response where
  | err (status : Nat) (error : String) (extra : Option String)
  | ok (contentType : String) (filename : String) (body : ImgBuffer)
  deriving DecidableEq, Repr

def noInputError : String :=
  "No image file provided. Please upload an image in the \"image\" field."

def invalidImageError : String :=
  "Invalid or corrupted image file. Please upload a valid JPG or PNG image."

/-- The /process handler of src/server.js lines 111-189 (mode fabricate):
reject a missing upload; compute the effective quality and the output
filename; STEP 1 transcode to intermediate JPEG (decode failure gives a 400
with no details); STEP 2 inject the EXIF record (failure gives a 500 whose
message field carries the thrown message); STEP 3 transcode to WebP at the
requested quality (failure gives a 500 with the codec message); on success
deliver the WebP bytes once, as an attachment under the derived filename. -/
def processFabricate (file : Option UploadFile) (qualityStr : String) : Response :=
  match file with
  | none => .err 400 noInputError none
  | some f =>
    let quality := effectiveQuality qualityStr
    let newFilename := jsPathParseName f.originalname ++ ".webp"
    match sharpToJpeg f.buffer with
    | .error _ => .err 400 invalidImageError none
    | .ok jpegBuffer =>
      match injectExifIntoJpeg jpegBuffer with
      | .error e => .err 500 "Failed to inject EXIF metadata" (some e)
      | .ok jpegWithExif =>
        match sharpToWebp quality jpegWithExif with
        | .error e => .err 500 "Failed to convert image to WebP" (some e)
        | .ok webpBuffer => .ok "image/webp" newFilename webpBuffer

/-- The /process handler of src/unnamed/part_000 lines 32-86 (mode strip):
reject a missing upload; compute the effective quality and the output
filename; one sharp call strips all metadata and re-encodes to WebP (decode
failure gives a 400 whose details field carries the codec error message); on
success deliver the WebP bytes once under the derived filename. -/
def processStrip (file : Option UploadFile) (qualityStr : String) : Response :=
  match file with
  | none => .err 400 noInputError none
  | some f =>
    let quality := effectiveQuality qualityStr
    let newFilename := jsPathParseName f.originalname ++ ".webp"
    match sharpStripToWebp quality f.buffer with
    | .error e => .err 400 invalidImageError (some e)
    | .ok webpBuffer => .ok "image/webp" newFilename webpBuffer

/-- True exactly on the error outcomes of a handler. -/
def respIsErr : Response → Bool
  | .err _ _ _ => true
  | .ok _ _ _ => false

/-- Decimal magnitude reconstructed from one DMS triplet, as in the
round-trip property of spec section 8: degrees plus minutes over 60 plus
(numerator over denominator) over 3600. -/
def dmsToDecimal (t : DMS) : ℚ :=
  (t.deg.1 : ℚ) / (t.deg.2 : ℚ) + ((t.min.1 : ℚ) / (t.min.2 : ℚ)) / 60 +
    ((t.sec.1 : ℚ) / (t.sec.2 : ℚ)) / 3600

/-- Latitude reconstructed from an encoder output: southern hemisphere
negates the magnitude. -/
def reconstructLat (g : GPSExif) : ℚ :=
  (if g.latRef = 'S' then -1 else 1) * dmsToDecimal g.lat

/-- Longitude reconstructed from an encoder output: western hemisphere
negates the magnitude. -/
def reconstructLng (g : GPSExif) : ℚ :=
  (if g.lngRef = 'W' then -1 else 1) * dmsToDecimal g.lng


/-! Helper lemmas about the rounding arithmetic. -/

theorem jsRound_intCast (n : ℤ) : jsRound (n : ℚ) = n := by
  unfold jsRound
  rw [add_comm, Int.floor_add_int]
  norm_num

theorem abs_jsRound_sub (x : ℚ) : |(jsRound x : ℚ) - x| ≤ 1/2 := by
  unfold jsRound
  have h1 : ((⌊x + 1/2⌋ : ℤ) : ℚ) ≤ x + 1/2 := Int.floor_le _
  have h2 : x + 1/2 - 1 < ((⌊x + 1/2⌋ : ℤ) : ℚ) := Int.sub_one_lt_floor _
  rw [abs_le]
  constructor <;> linarith

theorem jsRound_toFixed2 (x : ℚ) : jsRound (toFixed2 x * 100) = jsRound (x * 100) := by
  unfold toFixed2
  rw [div_mul_cancel₀ _ (by norm_num : (100 : ℚ) ≠ 0), jsRound_intCast]

/-- Unfolding lemma: the encoder written as an explicit record, one closed
formula per field. -/
theorem convertGPSToExif_eq (lat lng : ℚ) :
    convertGPSToExif lat lng =
      { latRef := if 0 ≤ lat then 'N' else 'S'
        lngRef := if 0 ≤ lng then 'E' else 'W'
        lat := ⟨(⌊|lat|⌋, 1), (⌊(|lat| - (⌊|lat|⌋ : ℚ)) * 60⌋, 1),
          (jsRound (toFixed2 ((|lat| - (⌊|lat|⌋ : ℚ) -
            (⌊(|lat| - (⌊|lat|⌋ : ℚ)) * 60⌋ : ℚ) / 60) * 3600) * 100), 100)⟩
        lng := ⟨(⌊|lng|⌋, 1), (⌊(|lng| - (⌊|lng|⌋ : ℚ)) * 60⌋, 1),
          (jsRound (toFixed2 ((|lng| - (⌊|lng|⌋ : ℚ) -
            (⌊(|lng| - (⌊|lng|⌋ : ℚ)) * 60⌋ : ℚ) / 60) * 3600) * 100), 100)⟩ } := rfl

/-- Reconstructing one axis from the triplet the encoder builds for the
absolute value a is within half of a hundredth of a second of a. -/
theorem dms_axis_close (a : ℚ) :
    |dmsToDecimal ⟨(⌊a⌋, 1), (⌊(a - (⌊a⌋ : ℚ)) * 60⌋, 1),
        (jsRound (toFixed2 ((a - (⌊a⌋ : ℚ) -
          (⌊(a - (⌊a⌋ : ℚ)) * 60⌋ : ℚ) / 60) * 3600) * 100), 100)⟩ - a|
      ≤ 1 / 720000 := by
  unfold dmsToDecimal
  dsimp only
  rw [jsRound_toFixed2]
  have key := abs_jsRound_sub (((a - (⌊a⌋ : ℚ) -
    (⌊(a - (⌊a⌋ : ℚ)) * 60⌋ : ℚ) / 60) * 3600) * 100)
  rw [abs_le] at key ⊢
  push_cast
  constructor <;> linarith [key.1, key.2]

/-- Spec-side definition, following the words of spec section 4.1 for one
axis applied to the absolute value a: degrees is the integer floor of a with
denominator 1; minutes is the integer floor of (a minus degrees) times 60
with denominator 1; seconds is (a minus degrees minus minutes over 60) times
3600, rounded to 2 decimal places, re-expressed as the rational with
numerator round(seconds times 100) and fixed denominator 100. -/
def encodeAxisSpec (a : ℚ) : DMS :=
  let degrees : ℤ := ⌊a⌋
  let minutes : ℤ := ⌊(a - (degrees : ℚ)) * 60⌋
  let secondsRaw : ℚ := (a - (degrees : ℚ) - (minutes : ℚ) / 60) * 3600
  let seconds : ℚ := (jsRound (secondsRaw * 100) : ℚ) / 100
  ⟨(degrees, 1), (minutes, 1), (jsRound (seconds * 100), 100)⟩

/-- C1: Coordinate Encoder algorithm: for every pair of finite decimal
inputs, convertGPSToExif returns hemisphere references determined by sign
(non-negative latitude gives N, negative gives S; non-negative longitude
gives E, negative gives W), and each axis carries exactly the
degrees/minutes/seconds triplet prescribed by the spec for the absolute
value of the input. -/
theorem convertGPSToExif_follows_spec (lat lng : ℚ) :
    convertGPSToExif lat lng =
      { latRef := if 0 ≤ lat then 'N' else 'S'
        lngRef := if 0 ≤ lng then 'E' else 'W'
        lat := encodeAxisSpec |lat|
        lng := encodeAxisSpec |lng| } := rfl

/-- C5: no rounding-carry correction: the latitude 11999/720000 (decimal
0.0166652777...) has raw seconds 59.995, which rounds to 60.00, and the
encoder returns the seconds rational 6000/100 while leaving the minutes
field at 0 instead of carrying into it; moreover on every input the minutes
field is the plain floor of the fractional part times 60, never adjusted by
the seconds rounding. -/
theorem seconds_round_to_sixty_no_carry :
    (convertGPSToExif (11999/720000) 0).lat = ⟨(0, 1), (0, 1), (6000, 100)⟩ ∧
    (∀ lat lng : ℚ,
      (convertGPSToExif lat lng).lat.min = (⌊(|lat| - (⌊|lat|⌋ : ℚ)) * 60⌋, 1) ∧
      (convertGPSToExif lat lng).lng.min = (⌊(|lng| - (⌊|lng|⌋ : ℚ)) * 60⌋, 1)) := by
  constructor
  · have h1 : |(11999/720000 : ℚ)| = 11999/720000 := abs_of_nonneg (by norm_num)
    have h2 : (⌊(11999/720000 : ℚ)⌋ : ℤ) = 0 := by norm_num
    unfold convertGPSToExif toFixed2 jsRound
    dsimp only
    rw [h1, h2]
    norm_num [DMS.mk.injEq, Prod.ext_iff]
  · intro lat lng
    rw [convertGPSToExif_eq]
    exact ⟨rfl, rfl⟩

/-- C4: round-trip precision of the Coordinate Encoder: for coordinates in
valid geographic range, reconstructing sign times (degrees plus minutes over
60 plus (numerator over denominator) over 3600) from the triplets returned
by convertGPSToExif differs from the original input by at most 1/360000 of a
degree; the bound in fact holds with no exception, and in particular also at
the seconds-rounding-to-60 boundary allowed for by the claim. -/
theorem gps_roundtrip (lat lng : ℚ) (h1 : -90 ≤ lat) (h2 : lat ≤ 90)
    (h3 : -180 ≤ lng) (h4 : lng ≤ 180) :
    |reconstructLat (convertGPSToExif lat lng) - lat| ≤ 1/360000 ∧
    |reconstructLng (convertGPSToExif lat lng) - lng| ≤ 1/360000 := by
  constructor
  · unfold reconstructLat
    rw [convertGPSToExif_eq]
    dsimp only
    by_cases h : 0 ≤ lat
    · rw [if_pos h, if_neg (by decide : ¬ ('N' : Char) = 'S'), one_mul, abs_of_nonneg h]
      have key := dms_axis_close lat
      rw [abs_le] at key ⊢
      constructor <;> linarith [key.1, key.2]
    · rw [if_neg h, if_pos rfl, abs_of_neg (not_le.mp h)]
      have key := dms_axis_close (-lat)
      rw [abs_le] at key ⊢
      constructor <;> linarith [key.1, key.2]
  · unfold reconstructLng
    rw [convertGPSToExif_eq]
    dsimp only
    by_cases h : 0 ≤ lng
    · rw [if_pos h, if_neg (by decide : ¬ ('E' : Char) = 'W'), one_mul, abs_of_nonneg h]
      have key := dms_axis_close lng
      rw [abs_le] at key ⊢
      constructor <;> linarith [key.1, key.2]
    · rw [if_neg h, if_pos rfl, abs_of_neg (not_le.mp h)]
      have key := dms_axis_close (-lng)
      rw [abs_le] at key ⊢
      constructor <;> linarith [key.1, key.2]

/-- Witness for gps_roundtrip at latitude 1/2, longitude -1/2. -/
theorem gps_roundtrip_witness :
    |reconstructLat (convertGPSToExif (1/2) (-(1/2))) - 1/2| ≤ 1/360000 ∧
    |reconstructLng (convertGPSToExif (1/2) (-(1/2))) - (-(1/2))| ≤ 1/360000 :=
  gps_roundtrip (1/2) (-(1/2)) (by norm_num) (by norm_num) (by norm_num) (by norm_num)

/-- C2: in mode fabricate, for every valid input image (any format, any
pixel content, any embedded metadata, any prior encoder quality), the
metadata record embedded in the final output equals exactly the fixed
configured constants together with the encoding of latitude 40.748817 and
longitude -73.985428; the uploaded image's own metadata does not occur on
the right-hand side. -/
theorem fabricate_metadata_fixed (fmt : Format) (px : List Nat)
    (m : Option ExifObj) (lq : ℤ) (name qs : String) :
    processFabricate (some ⟨.valid fmt px m lq, name⟩) qs =
      .ok "image/webp" (jsPathParseName name ++ ".webp")
        (.valid .webp px
          (some { make := "Canon", model := "Canon EOS 5D Mark IV",
                  software := "Adobe Photoshop Lightroom",
                  gps := convertGPSToExif 40.748817 (-73.985428) })
          (effectiveQuality qs)) := rfl

/-- C3: ordering invariant of the fabricate pipeline: whenever the
orchestrator delivers image bytes, those bytes arose by first transcoding
the upload (of any input format, PNG included) to an intermediate JPEG,
then injecting the metadata record into that JPEG buffer - which is always
a JPEG-format buffer - and then transcoding the result to WebP, in exactly
that data-dependency order. -/
theorem fabricate_pipeline_order (f : UploadFile) (qs ct fn : String)
    (body : ImgBuffer)
    (h : processFabricate (some f) qs = .ok ct fn body) :
    ∃ b1 b2, sharpToJpeg f.buffer = .ok b1 ∧
      (∃ px m q, b1 = .valid .jpeg px m q) ∧
      injectExifIntoJpeg b1 = .ok b2 ∧
      sharpToWebp (effectiveQuality qs) b2 = .ok body := by
  obtain ⟨buf, name⟩ := f
  cases buf with
  | corrupt msg => simp [processFabricate, sharpToJpeg] at h
  | valid fmt px m lq =>
    simp only [processFabricate, sharpToJpeg, injectExifIntoJpeg, sharpToWebp,
      Response.ok.injEq] at h
    refine ⟨.valid .jpeg px none 95, .valid .jpeg px (some fabricatedExif) 95,
      rfl, ⟨px, none, 95, rfl⟩, rfl, ?_⟩
    rw [← h.2.2]
    rfl

/-- Witness for fabricate_pipeline_order at a concrete PNG upload. -/
theorem fabricate_pipeline_order_witness :
    ∃ b1 b2, sharpToJpeg (ImgBuffer.valid .png [1] none 0) = .ok b1 ∧
      (∃ px m q, b1 = ImgBuffer.valid .jpeg px m q) ∧
      injectExifIntoJpeg b1 = .ok b2 ∧
      sharpToWebp (effectiveQuality "") b2 =
        .ok (ImgBuffer.valid .webp [1] (some fabricatedExif) 75) :=
  fabricate_pipeline_order ⟨.valid .png [1] none 0, "a.png"⟩ "" "image/webp"
    "a.webp" (.valid .webp [1] (some fabricatedExif) 75) rfl

/-- C9: fail-stop atomicity of the fabricate pipeline: bytes are delivered
exactly when every stage of the chain succeeded (first conjunct), and each
possible stage failure, missing upload included, maps to exactly the one
error response of that stage, independent of anything later in the chain -
so no stage after a failed one contributes to the outcome and no partial
output exists.  processFabricate is a total function, so each request has
exactly one outcome. -/
theorem fabricate_failstop (file : Option UploadFile) (qs : String) :
    (∀ ct fn body, processFabricate file qs = .ok ct fn body →
      ∃ f b1 b2, file = some f ∧ sharpToJpeg f.buffer = .ok b1 ∧
        injectExifIntoJpeg b1 = .ok b2 ∧
        sharpToWebp (effectiveQuality qs) b2 = .ok body) ∧
    (file = none → processFabricate file qs = .err 400 noInputError none) ∧
    (∀ f e, file = some f → sharpToJpeg f.buffer = .error e →
      processFabricate file qs = .err 400 invalidImageError none) ∧
    (∀ f b1 e, file = some f → sharpToJpeg f.buffer = .ok b1 →
      injectExifIntoJpeg b1 = .error e →
      processFabricate file qs = .err 500 "Failed to inject EXIF metadata" (some e)) ∧
    (∀ f b1 b2 e, file = some f → sharpToJpeg f.buffer = .ok b1 →
      injectExifIntoJpeg b1 = .ok b2 →
      sharpToWebp (effectiveQuality qs) b2 = .error e →
      processFabricate file qs = .err 500 "Failed to convert image to WebP" (some e)) := by
  refine ⟨?_, ?_, ?_, ?_, ?_⟩
  · intro ct fn body h
    match file with
    | none => simp [processFabricate] at h
    | some ⟨buf, name⟩ =>
      cases buf with
      | corrupt msg => simp [processFabricate, sharpToJpeg] at h
      | valid fmt px m lq =>
        simp only [processFabricate, sharpToJpeg, injectExifIntoJpeg, sharpToWebp,
          Response.ok.injEq] at h
        exact ⟨⟨.valid fmt px m lq, name⟩, .valid .jpeg px none 95,
          .valid .jpeg px (some fabricatedExif) 95, rfl, rfl, rfl,
          by rw [← h.2.2]; rfl⟩
  · rintro rfl; rfl
  · rintro f e rfl he
    obtain ⟨buf, name⟩ := f
    cases buf with
    | corrupt msg => rfl
    | valid fmt px m lq => exact absurd he (by simp [sharpToJpeg])
  · rintro f b1 e rfl hb he
    obtain ⟨buf, name⟩ := f
    cases buf with
    | corrupt msg => exact absurd hb (by simp [sharpToJpeg])
    | valid fmt px m lq =>
      simp only [sharpToJpeg, Except.ok.injEq] at hb
      rw [← hb] at he
      exact absurd he (by simp [injectExifIntoJpeg])
  · rintro f b1 b2 e rfl hb hi hw
    obtain ⟨buf, name⟩ := f
    cases buf with
    | corrupt msg => exact absurd hb (by simp [sharpToJpeg])
    | valid fmt px m lq =>
      simp only [sharpToJpeg, Except.ok.injEq] at hb
      rw [← hb] at hi
      simp only [injectExifIntoJpeg, Except.ok.injEq] at hi
      rw [← hi] at hw
      exact absurd hw (by simp [sharpToWebp])

/-- Witness for fabricate_failstop: a corrupt upload yields exactly the
stage-one client error. -/
theorem fabricate_failstop_witness :
    processFabricate (some ⟨.corrupt "boom", "x.jpg"⟩) "80" =
      .err 400 invalidImageError none :=
  (fabricate_failstop (some ⟨.corrupt "boom", "x.jpg"⟩) "80").2.2.1
    ⟨.corrupt "boom", "x.jpg"⟩ "boom" rfl rfl

/-- C6: quality parameter fallback: a quality field that does not parse to
an integer, or parses to one outside the range 0 to 100, yields effective
quality 75; and the success or failure of a request never depends on the
quality string, so no request is rejected on account of the quality field. -/
theorem quality_fallback :
    (∀ s, parseIntJS s = none → effectiveQuality s = 75) ∧
    (∀ s n, parseIntJS s = some n → n < 0 ∨ 100 < n → effectiveQuality s = 75) ∧
    (∀ file s s₂, respIsErr (processFabricate file s) = respIsErr (processFabricate file s₂)) := by
  refine ⟨?_, ?_, ?_⟩
  · intro s h
    unfold effectiveQuality
    rw [h]
    norm_num
  · intro s n h hr
    unfold effectiveQuality
    rw [h]
    dsimp only
    have hn : n ≠ 0 := by
      rintro rfl
      rcases hr with h2 | h2 <;> exact absurd h2 (by norm_num)
    rw [if_neg hn, if_pos hr]
  · intro file s s₂
    match file with
    | none => rfl
    | some ⟨.valid fmt px m lq, name⟩ => rfl
    | some ⟨.corrupt msg, name⟩ => rfl

/-- Witness for quality_fallback: a non-numeric and an out-of-range quality
string both fall back to 75. -/
theorem quality_fallback_witness :
    effectiveQuality "abc" = 75 ∧ effectiveQuality "250" = 75 :=
  ⟨quality_fallback.1 "abc" (by decide),
   quality_fallback.2.1 "250" 250 (by decide) (by decide)⟩

/-- C7: the quality string consisting of the digit 0 parses to the integer
0, which lies inside the documented range, yet the effective quality is the
default 75, because parseInt's result 0 is falsy in JS exactly like a parse
failure; consequently no quality string at all can make the effective
quality 0. -/
theorem quality_zero_default :
    parseIntJS "0" = some 0 ∧ effectiveQuality "0" = 75 ∧
    ∀ s, effectiveQuality s ≠ 0 := by
  refine ⟨by decide, by decide, ?_⟩
  intro s
  unfold effectiveQuality
  cases hp : parseIntJS s with
  | none => norm_num
  | some n =>
    dsimp only
    by_cases hn : n = 0
    · rw [if_pos hn]; norm_num
    · rw [if_neg hn]
      by_cases hc : n < 0 ∨ 100 < n
      · rw [if_pos hc]; norm_num
      · rw [if_neg hc]; exact hn

/-- C8 counterexample: in the stripping variant, a decode failure produces a
client-visible payload whose details field carries the codec library's own
error message verbatim - an internal detail - so the claim that client-fault
DecodeError responses carry only a user-actionable message and leak no
internal detail is false as stated. -/
theorem strip_decode_error_leaks_details :
    processStrip (some ⟨.corrupt "VipsJpeg: Premature end of JPEG file", "photo.jpg"⟩) "80" =
      .err 400 invalidImageError (some "VipsJpeg: Premature end of JPEG file") := rfl

/-- C8 amended: client-fault error opacity holds with one exception: in the
fabricate variant both the missing-upload and the decode-failure responses
carry only the fixed user-actionable message and no extra field; in the
stripping variant the missing-upload response likewise, but its
decode-failure response additionally exposes the underlying codec error
message in a details field. -/
theorem client_fault_error_payloads :
    (∀ qs, processFabricate none qs = .err 400 noInputError none) ∧
    (∀ msg name qs, processFabricate (some ⟨.corrupt msg, name⟩) qs =
      .err 400 invalidImageError none) ∧
    (∀ qs, processStrip none qs = .err 400 noInputError none) ∧
    (∀ msg name qs, processStrip (some ⟨.corrupt msg, name⟩) qs =
      .err 400 invalidImageError (some msg)) :=
  ⟨fun _ => rfl, fun _ _ _ => rfl, fun _ => rfl, fun _ _ _ => rfl⟩

/-- C10: output filename derivation: in both variants, every successful
request is delivered under the attachment filename obtained from the
declared original filename by taking its base name, stripping the
extension, and appending .webp. -/
theorem output_filename_derivation (f : UploadFile) (qs ct fn : String)
    (body : ImgBuffer) :
    (processFabricate (some f) qs = .ok ct fn body →
      fn = jsPathParseName f.originalname ++ ".webp") ∧
    (processStrip (some f) qs = .ok ct fn body →
      fn = jsPathParseName f.originalname ++ ".webp") := by
  obtain ⟨buf, name⟩ := f
  cases buf with
  | valid fmt px m lq =>
    constructor <;> intro h
    · simp only [processFabricate, sharpToJpeg, injectExifIntoJpeg, sharpToWebp,
        Response.ok.injEq] at h
      exact h.2.1.symm
    · simp only [processStrip, sharpStripToWebp, Response.ok.injEq] at h
      exact h.2.1.symm
  | corrupt msg =>
    constructor <;> intro h
    · simp [processFabricate, sharpToJpeg] at h
    · simp [processStrip, sharpStripToWebp] at h

/-- Witness for output_filename_derivation at the upload name photo.png. -/
theorem output_filename_derivation_witness :
    ("photo.webp" : String) = jsPathParseName "photo.png" ++ ".webp" :=
  (output_filename_derivation ⟨.valid .jpeg [] none 0, "photo.png"⟩ ""
    "image/webp" "photo.webp" (.valid .webp [] (some fabricatedExif) 75)).1 rfl
